import Mathlib

/-
Verification development for the Kompanion digital prototype
(prototype.py): an in-process pub/sub bus with MQTT-style single-level
wildcard matching, and two companion devices that exchange presence,
health and feed messages over it.

Numeric payloads and timestamps are modelled as rationals (the Python
floats in play are decimal literals compared against the exact
constants 4.0, 8.0, 6.0 and 10.0, where rational arithmetic agrees
with IEEE semantics on every comparison that occurs).  Byte-string
payloads are modelled by the Payload type below.
-/

namespace Kompanion

/-- PH_SAFE_LOW = 4.0 (prototype.py line 20). -/
def PH_SAFE_LOW : ℚ := 4

/-- PH_SAFE_HIGH = 8.0 (prototype.py line 21). -/
def PH_SAFE_HIGH : ℚ := 8

/-- PRESENCE_TIMEOUT = 10.0 (prototype.py line 22). -/
def PRESENCE_TIMEOUT : ℚ := 10

/-- The sensor loop interval: time.sleep(2) in _sensor_loop. -/
def POLL_INTERVAL : ℚ := 2

/-- The dispenser recovery window: time.sleep(2.5) in _on_feed_received. -/
def RECOVERY_WINDOW : ℚ := 5 / 2

/-- Split a character list at every occurrence of the separator, keeping
empty chunks, mirroring Python str.split(sep) with a non-empty separator
(restricted to the single-character separators used by the prototype). -/
def splitCh (c : Char) : List Char → List (List Char)
  | [] => [[]]
  | x :: xs =>
    if x = c then [] :: splitCh c xs
    else
      match splitCh c xs with
      | g :: gs => (x :: g) :: gs
      | [] => [[x]]

/-- topic.split("/") as used throughout prototype.py. -/
def splitSlash (s : String) : List String :=
  (splitCh '/' s.toList).map (fun cs => String.mk cs)

/-- Value of a decimal digit character, none for a non-digit. -/
def digitVal (c : Char) : Option ℕ :=
  if c.isDigit then some (c.toNat - 48) else none

/-- Accumulate a digit string into a natural number. -/
def digitsValAux : ℕ → List Char → Option ℕ
  | acc, [] => some acc
  | acc, c :: cs =>
    match digitVal c with
    | some d => digitsValAux (10 * acc + d) cs
    | none => none

/-- Parse a non-empty digit string. -/
def digitsVal : List Char → Option ℕ
  | [] => none
  | cs => digitsValAux 0 cs

/-- Magnitude part of Python float(text) on the plain decimal forms the
prototype exchanges: digits, digits.digits, digits. or .digits
(no exponent / inf / nan forms, which never occur on the bus). -/
def rawParseMag (cs : List Char) : Option ℚ :=
  match splitCh '.' cs with
  | [ip] => (digitsVal ip).map (fun n => (n : ℚ))
  | [ip, fp] =>
    if ip = [] ∧ fp = [] then none
    else
      match (if ip = [] then some 0 else digitsVal ip),
            (if fp = [] then some 0 else digitsVal fp) with
      | some n, some f => some ((n : ℚ) + (f : ℚ) / (10 : ℚ) ^ fp.length)
      | _, _ => none
  | _ => none

/-- Python float(text) with an optional sign, on the decimal forms above;
none models a ValueError. -/
def rawParse (s : String) : Option ℚ :=
  match s.toList with
  | '-' :: rest => (rawParseMag rest).map (fun q => -q)
  | '+' :: rest => rawParseMag rest
  | cs => rawParseMag cs

/-- A bus payload (a Python byte string).  raw s is the literal byte
string s (b"", b"0", b"1", or arbitrary inbound text); phVal q models
str(ph).encode() for a pH reading q; tsVal q models
str(time.time()).encode() for a timestamp q.  str() of a Python float
always carries a decimal point, so a phVal / tsVal payload is never the
single byte b"1" compared against by the presence_binary branch. -/
inductive Payload
  | raw (s : String)
  | phVal (q : ℚ)
  | tsVal (q : ℚ)
  deriving DecidableEq

/-- float(payload.decode()) for a bus payload: a numeric payload carries
its value; a raw byte string goes through the decimal text parse. -/
def parseFloat : Payload → Option ℚ
  | .raw s => rawParse s
  | .phVal q => some q
  | .tsVal q => some q

/-- payload == b"1", the presence_binary test at prototype.py line 243. -/
def payloadIsOne (p : Payload) : Bool :=
  p == Payload.raw "1"

/-- LED state of Hardware: "off" | "amber" | "red". -/
inductive LedState
  | off
  | amber
  | red
  deriving DecidableEq

/-- Abstracted device log entries (the _log calls inside CompanionDevice
and the LED-change logs of Hardware), with the formatted text replaced
by the data it carries. -/
inductive LogEntry
  | friendPresence (b : Bool)
  | friendSOS (ph : ℚ)
  | friendRecovered (ph : ℚ)
  | feedReceived (peer : String)
  | tapping (friendId : String)
  | dispensing (ph : ℚ)
  | dispenserComplete
  | ledChange (l : LedState)
  deriving DecidableEq

/-- Does a log entry record execution of the feed-received sequence? -/
def isFeedEntry : LogEntry → Bool
  | .feedReceived _ => true
  | _ => false

/-- State of one CompanionDevice together with its Hardware: the fields
initialised in CompanionDevice.__init__ plus the hardware presence and
pH readings (_presence, _ph) and LED state, and the accumulated log. -/
structure DeviceState where
  id : String
  friendId : String
  present : Bool
  friendPresent : Bool
  friendUnhealthy : Bool
  friendLastPresenceTs : ℚ
  friendBinarySeen : Bool
  recovering : Bool
  hwPresence : Bool
  hwPh : ℚ
  led : LedState
  log : List LogEntry
  deriving DecidableEq

/-- CompanionDevice.__init__ state with Hardware defaults
(_presence = False, _ph = 7.0, led "off"). -/
def initDevice (id friendId : String) : DeviceState :=
  { id := id
    friendId := friendId
    present := false
    friendPresent := false
    friendUnhealthy := false
    friendLastPresenceTs := 0
    friendBinarySeen := false
    recovering := false
    hwPresence := false
    hwPh := 7
    led := .off
    log := [] }

/-- TOPIC_PRESENCE.format(id=i). -/
def TOPIC_PRESENCE (i : String) : String := "kompanion/" ++ i ++ "/presence"

/-- TOPIC_PRESENCE_BINARY.format(id=i). -/
def TOPIC_PRESENCE_BINARY (i : String) : String :=
  "kompanion/" ++ i ++ "/presence_binary"

/-- TOPIC_HEALTH.format(id=i). -/
def TOPIC_HEALTH (i : String) : String := "kompanion/" ++ i ++ "/health"

/-- TOPIC_FEED.format(id=i). -/
def TOPIC_FEED (i : String) : String := "kompanion/" ++ i ++ "/feed"

/-- The indicator as the pure precedence function of the three flags:
Alert (red) if the friend is unhealthy, else Synced (amber) if both
present, else Idle (off). -/
def ledOf (fu p fp : Bool) : LedState :=
  if fu then .red else if p && fp then .amber else .off

/-- CompanionDevice._update_led at time now: when no presence_binary has
ever been seen and the stored timestamp is non-zero (Python truthiness),
re-derive friend_present from the timestamp timeout; then set the LED by
the precedence rule and record the hardware's LED log line. -/
def updateLed (now : ℚ) (s : DeviceState) : DeviceState :=
  let s1 :=
    if s.friendBinarySeen = false ∧ s.friendLastPresenceTs ≠ 0 then
      { s with friendPresent :=
          decide (now - s.friendLastPresenceTs < PRESENCE_TIMEOUT) }
    else s
  let l := ledOf s1.friendUnhealthy s1.present s1.friendPresent
  { s1 with led := l, log := s1.log ++ [LogEntry.ledChange l] }

/-- CompanionDevice._on_feed_received (without the GUI dispense callback
and with the 2.5 s recovery timer modelled by recoveryComplete below):
set the hardware pH to the midpoint of the safe range, raise the
recovering flag, log, publish the recovered health value under this
device's own id, and recompute the LED. -/
def onFeedReceived (now : ℚ) (s : DeviceState) :
    DeviceState × List (String × Payload) :=
  let recoveredPh : ℚ := (PH_SAFE_LOW + PH_SAFE_HIGH) / 2
  let s1 := { s with
    hwPh := recoveredPh
    recovering := true
    log := s.log ++ [LogEntry.dispensing recoveredPh] }
  (updateLed now s1, [(TOPIC_HEALTH s1.id, Payload.phVal recoveredPh)])

/-- The _finish closure of _on_feed_received, run when the 2.5 s
recovery window elapses: clear the recovering flag and log. -/
def recoveryComplete (s : DeviceState) : DeviceState :=
  { s with recovering := false, log := s.log ++ [LogEntry.dispenserComplete] }

/-- CompanionDevice._on_message on an already-split topic: drop topics
that do not have exactly three segments; drop messages whose peer
segment is this device's own id; dispatch on the kind segment
(presence / presence_binary / health / feed), with an unparseable health
payload ignored entirely (early return, before _update_led); every
non-dropped path ends in _update_led.  Returns the new state and the
publishes the handler itself emitted. -/
def onMessageParts (now : ℚ) (s : DeviceState) :
    List String → Payload → DeviceState × List (String × Payload)
  | [_, peer, kind], payload =>
    if peer = s.id then (s, [])
    else if kind = "presence" then
      (updateLed now
        { s with friendLastPresenceTs := (parseFloat payload).getD 0 }, [])
    else if kind = "presence_binary" then
      let fp := payloadIsOne payload
      (updateLed now
        { s with friendPresent := fp, friendBinarySeen := true,
                 log := s.log ++ [LogEntry.friendPresence fp] }, [])
    else if kind = "health" then
      match parseFloat payload with
      | none => (s, [])
      | some ph =>
        let fu : Bool :=
          ! (decide (PH_SAFE_LOW ≤ ph) && decide (ph ≤ PH_SAFE_HIGH))
        let entries :=
          if fu && ! s.friendUnhealthy then [LogEntry.friendSOS ph]
          else if ! fu && s.friendUnhealthy then [LogEntry.friendRecovered ph]
          else []
        (updateLed now
          { s with friendUnhealthy := fu, log := s.log ++ entries }, [])
    else if kind = "feed" then
      let s1 := { s with log := s.log ++ [LogEntry.feedReceived peer] }
      let r := onFeedReceived now s1
      (updateLed now r.1, r.2)
    else
      (updateLed now s, [])
  | _, _ => (s, [])

/-- CompanionDevice._on_message: split the topic on "/" and dispatch. -/
def onMessage (now : ℚ) (s : DeviceState) (topic : String)
    (payload : Payload) : DeviceState × List (String × Payload) :=
  onMessageParts now s (splitSlash topic) payload

/-- One iteration of CompanionDevice._sensor_loop at time now: read the
presence sensor; on a change publish a presence timestamp (or b"0") and
a presence_binary byte; unless recovering, publish the current pH; then
recompute the LED. -/
def sensorTick (now : ℚ) (s : DeviceState) :
    DeviceState × List (String × Payload) :=
  let prev := s.present
  let s1 := { s with present := s.hwPresence }
  let presencePubs :=
    if s1.present ≠ prev then
      [(TOPIC_PRESENCE s1.id,
          if s1.present then Payload.tsVal now else Payload.raw "0"),
       (TOPIC_PRESENCE_BINARY s1.id,
          Payload.raw (if s1.present then "1" else "0"))]
    else []
  let healthPubs :=
    if s1.recovering = false then
      [(TOPIC_HEALTH s1.id, Payload.phVal s1.hwPh)]
    else []
  (updateLed now s1, presencePubs ++ healthPubs)

/-- CompanionDevice._on_button: only when the friend is currently
unhealthy, log and publish an empty feed message on the topic carrying
the friend's id; otherwise do nothing. -/
def onButton (s : DeviceState) : DeviceState × List (String × Payload) :=
  if s.friendUnhealthy then
    ({ s with log := s.log ++ [LogEntry.tapping s.friendId] },
     [(TOPIC_FEED s.friendId, Payload.raw "")])
  else (s, [])

/-- InProcessBus._match: split pattern and topic on "/", reject on a
segment-count mismatch, otherwise require every pattern segment to be
the single-level wildcard "+" or to equal the topic segment. -/
def busMatch (pattern topic : String) : Bool :=
  let pp := splitSlash pattern
  let tp := splitSlash topic
  if pp.length ≠ tp.length then false
  else (pp.zip tp).all (fun pt => pt.1 == "+" || pt.1 == pt.2)

/-- The subscriber table of InProcessBus (self._subs): pattern/handler
pairs in registration order; handlers are abstract (type α). -/
def subscribeBus {α : Type} (subs : List (String × α)) (pattern : String)
    (cb : α) : List (String × α) :=
  subs ++ [(pattern, cb)]

/-- The snapshot InProcessBus.publish takes under the lock: the handlers
whose pattern matches the topic, in registration order. -/
def matchedSubs {α : Type} (subs : List (String × α)) (topic : String) :
    List α :=
  (subs.filter (fun pc => busMatch pc.1 topic)).map Prod.snd

/-- The dispatch loop of InProcessBus.publish: invoke each matched
handler in turn; a handler that raises yields an error value that is
recorded in place (the except branch prints it) and the loop continues
with the remaining handlers — no exception propagates. -/
def dispatchLoop {α ε β : Type} (run : α → Except ε β) :
    List α → List (Except ε β)
  | [] => []
  | cb :: rest => run cb :: dispatchLoop run rest

/-- InProcessBus.publish: invoke every currently-registered matching
handler once with (topic, payload), collecting each handler's outcome;
it is a total function — a failing handler contributes an error value
and never destabilises the publisher. -/
def busPublish {α ε β : Type} (subs : List (String × α))
    (run : α → String → Payload → Except ε β) (topic : String)
    (payload : Payload) : List (Except ε β) :=
  dispatchLoop (fun cb => run cb topic payload) (matchedSubs subs topic)

/-- MockMQTTClient.publish: forwards to InProcessBus.publish; the qos
and retain keyword arguments are passed along and discarded by the bus
(the **_ parameter of InProcessBus.publish), so they never influence
delivery and no payload is stored for later subscribers. -/
def mockClientPublish {α ε β : Type} (subs : List (String × α))
    (run : α → String → Payload → Except ε β) (topic : String)
    (payload : Payload) (qos : ℕ) (retain : Bool) : List (Except ε β) :=
  busPublish subs run topic payload

/-- The two started devices of KompanionApp, each subscribed to
"kompanion/+/+" (in _on_connect), device A registered on the bus before
device B. -/
structure World where
  devA : DeviceState
  devB : DeviceState
  deriving DecidableEq

/-- Synchronous bus delivery for the two-device system: each pending
publish is matched against the shared subscription pattern and, when it
matches, dispatched first to device A's handler, then to device B's, in
registration order; publishes emitted by a handler are delivered
recursively before dispatch continues (bus.publish is re-entered inside
the handler), exactly as the synchronous in-process bus does.  The fuel
bounds the nesting depth (the prototype's feed-then-health chain has
depth two). -/
def deliverPubs (now : ℚ) : ℕ → World → List (String × Payload) → World
  | 0, w, _ => w
  | _ + 1, w, [] => w
  | fuel + 1, w, (t, pl) :: rest =>
    let w1 :=
      if busMatch "kompanion/+/+" t then
        let ra := onMessage now w.devA t pl
        let wa := deliverPubs now fuel { w with devA := ra.1 } ra.2
        let rb := onMessage now wa.devB t pl
        deliverPubs now fuel { wa with devB := rb.1 } rb.2
      else w
    deliverPubs now fuel w1 rest

/-- Device A ("A", friend "B") after receiving B's health report of
pH 3.0: its friend_unhealthy flag is set and its LED is red. -/
def devA0 : DeviceState :=
  (onMessage 0 (initDevice "A" "B") (TOPIC_HEALTH "B") (Payload.phVal 3)).1

/-- Device B ("B", friend "A") whose own hardware pH has drifted to
3.0 (the unhealthy value A reacted to). -/
def devB0 : DeviceState :=
  { initDevice "B" "A" with hwPh := 3 }

/-- The system state after A's button trigger fires in the situation
above: A taps (friend_unhealthy is true, so a feed message is published
on kompanion/B/feed) and the bus delivers everything synchronously. -/
def feedScenario : World :=
  let r := onButton devA0
  deliverPubs 1 5 { devA := r.1, devB := devB0 } r.2

/-- Does the topic denote a health message from the peer (exactly three
segments, kind "health", peer segment different from this device's own
id)?  Only such messages reach the friend_unhealthy update. -/
def isPeerHealth (s : DeviceState) (topic : String) : Bool :=
  match splitSlash topic with
  | [_, peer, kind] => kind == "health" && peer != s.id
  | _ => false

/-- A device state whose indicator was just recomputed at time now: the
LED shows the pure precedence function of the three flags, and the
timestamp-fallback value of friend_present is already settled, so a
further recomputation at the same time changes neither. -/
def ledFresh (now : ℚ) (r : DeviceState) : Prop :=
  r.led = ledOf r.friendUnhealthy r.present r.friendPresent ∧
  (updateLed now r).friendPresent = r.friendPresent

/-- devA0 written out: device A after B's health=3.0 report. -/
def devA0x : DeviceState :=
  { id := "A", friendId := "B", present := false, friendPresent := false,
    friendUnhealthy := true, friendLastPresenceTs := 0,
    friendBinarySeen := false, recovering := false, hwPresence := false,
    hwPh := 7, led := .red, log := [.friendSOS 3, .ledChange .red] }

/-- Device A right after its button fires (tap logged). -/
def devA1x : DeviceState :=
  { devA0x with log := devA0x.log ++ [.tapping "B"] }

/-- Device A after it processed the feed message it itself published to
kompanion/B/feed: its own pH reset to 6, recovering set, the
feed-received sequence logged on A. -/
def devA2x : DeviceState :=
  { id := "A", friendId := "B", present := false, friendPresent := false,
    friendUnhealthy := true, friendLastPresenceTs := 0,
    friendBinarySeen := false, recovering := true, hwPresence := false,
    hwPh := 6, led := .red,
    log := [.friendSOS 3, .ledChange .red, .tapping "B", .feedReceived "B",
            .dispensing 6, .ledChange .red, .ledChange .red] }

/-- Device B at the end of the feed scenario: its pH is still 3, it ran
no feed sequence, and it merely recomputed its LED after A's spurious
health=6.0 publish. -/
def devB1x : DeviceState :=
  { id := "B", friendId := "A", present := false, friendPresent := false,
    friendUnhealthy := false, friendLastPresenceTs := 0,
    friendBinarySeen := false, recovering := false, hwPresence := false,
    hwPh := 3, led := .off, log := [.ledChange .off] }

/-- A device with a stale presence timestamp and an amber LED, used to
exhibit the skipped recomputation on an ignored message. -/
def c2State : DeviceState :=
  { initDevice "B" "A" with
    present := true
    friendPresent := true
    friendLastPresenceTs := 5
    led := .amber }

/- ───────────────────────── theorems ───────────────────────── -/

theorem updateLed_friendUnhealthy (now : ℚ) (s : DeviceState) :
    (updateLed now s).friendUnhealthy = s.friendUnhealthy := by
  unfold updateLed
  split <;> rfl

theorem updateLed_present (now : ℚ) (s : DeviceState) :
    (updateLed now s).present = s.present := by
  unfold updateLed
  split <;> rfl

theorem updateLed_recovering (now : ℚ) (s : DeviceState) :
    (updateLed now s).recovering = s.recovering := by
  unfold updateLed
  split <;> rfl

theorem updateLed_hwPh (now : ℚ) (s : DeviceState) :
    (updateLed now s).hwPh = s.hwPh := by
  unfold updateLed
  split <;> rfl

theorem updateLed_friendBinarySeen (now : ℚ) (s : DeviceState) :
    (updateLed now s).friendBinarySeen = s.friendBinarySeen := by
  unfold updateLed
  split <;> rfl

theorem updateLed_friendLastPresenceTs (now : ℚ) (s : DeviceState) :
    (updateLed now s).friendLastPresenceTs = s.friendLastPresenceTs := by
  unfold updateLed
  split <;> rfl

theorem updateLed_friendPresent_fallback (now : ℚ) (s : DeviceState)
    (h1 : s.friendBinarySeen = false) (h2 : s.friendLastPresenceTs ≠ 0) :
    (updateLed now s).friendPresent =
      decide (now - s.friendLastPresenceTs < PRESENCE_TIMEOUT) := by
  unfold updateLed
  rw [if_pos ⟨h1, h2⟩]

theorem updateLed_friendPresent_skip (now : ℚ) (s : DeviceState)
    (h : ¬ (s.friendBinarySeen = false ∧ s.friendLastPresenceTs ≠ 0)) :
    (updateLed now s).friendPresent = s.friendPresent := by
  unfold updateLed
  rw [if_neg h]

theorem zipAll_spec (l1 l2 : List String) (h : l1.length = l2.length) :
    ((l1.zip l2).all (fun pt => pt.1 == "+" || pt.1 == pt.2) = true ↔
      ∀ i < l1.length, l1[i]? = some "+" ∨ l1[i]? = l2[i]?) := by
  induction l1 generalizing l2 with
  | nil => simp
  | cons a l1 ih =>
    cases l2 with
    | nil => simp at h
    | cons b l2 =>
      simp only [List.zip_cons_cons, List.all_cons, Bool.and_eq_true,
        Bool.or_eq_true, beq_iff_eq]
      rw [ih l2 (by simpa using h)]
      constructor
      · rintro ⟨h0, hrest⟩ i hi
        cases i with
        | zero => simpa using h0
        | succ n =>
          simpa using hrest n (Nat.lt_of_succ_lt_succ hi)
      · intro hall
        refine ⟨?_, fun n hn => ?_⟩
        · simpa using hall 0 (Nat.succ_pos _)
        · simpa using hall (n + 1) (Nat.succ_lt_succ hn)

/-- C4: the matcher rejects pattern/topic pairs whose "/"-splits have
different segment counts, and on equal counts it accepts exactly when
every pattern segment is the wildcard "+" or equals the corresponding
topic segment. -/
theorem topic_match_spec (pattern topic : String) :
    ((splitSlash pattern).length ≠ (splitSlash topic).length →
      busMatch pattern topic = false) ∧
    ((splitSlash pattern).length = (splitSlash topic).length →
      (busMatch pattern topic = true ↔
        ∀ i < (splitSlash pattern).length,
          (splitSlash pattern)[i]? = some "+" ∨
          (splitSlash pattern)[i]? = (splitSlash topic)[i]?)) := by
  constructor
  · intro h
    unfold busMatch
    rw [if_pos h]
  · intro h
    unfold busMatch
    rw [if_neg (by simpa using h)]
    exact zipAll_spec _ _ h

/-- Witness for C4 at the spec's example pair: kompanion/+/health
matches kompanion/A/health and not kompanion/A/health/extra. -/
theorem topic_match_spec_witness :
    busMatch "kompanion/+/health" "kompanion/A/health" = true ∧
    busMatch "kompanion/+/health" "kompanion/A/health/extra" = false := by
  constructor
  · exact ((topic_match_spec "kompanion/+/health" "kompanion/A/health").2
      (by decide)).mpr (by decide)
  · exact (topic_match_spec "kompanion/+/health"
      "kompanion/A/health/extra").1 (by decide)

/-- C7: the button trigger publishes exactly one empty feed message on
the topic carrying friend_id when friend_unhealthy is true, and when
friend_unhealthy is false it publishes nothing and leaves the state
untouched (the handler is a total function, so no error is raised). -/
theorem button_guard (s : DeviceState) :
    (s.friendUnhealthy = true →
      onButton s =
        ({ s with log := s.log ++ [LogEntry.tapping s.friendId] },
         [(TOPIC_FEED s.friendId, Payload.raw "")])) ∧
    (s.friendUnhealthy = false → onButton s = (s, [])) := by
  constructor <;> intro h <;> simp [onButton, h]

/-- Witness for C7: a tap with an unhealthy friend publishes the single
feed message to kompanion/B/feed; a tap on a freshly started device
(healthy friend) is a no-op. -/
theorem button_guard_witness :
    onButton devA0x =
      ({ devA0x with log := devA0x.log ++ [LogEntry.tapping "B"] },
       [("kompanion/B/feed", Payload.raw "")]) ∧
    onButton (initDevice "A" "B") = (initDevice "A" "B", []) := by
  constructor
  · exact (button_guard devA0x).1 rfl
  · exact (button_guard (initDevice "A" "B")).2 rfl

theorem onFeedReceived_friendUnhealthy (now : ℚ) (s : DeviceState) :
    (onFeedReceived now s).1.friendUnhealthy = s.friendUnhealthy := by
  simp [onFeedReceived, updateLed_friendUnhealthy]

/-- C3: a health message from the peer with a parseable payload ph sets
friend_unhealthy to the negation of PH_SAFE_LOW ≤ ph ≤ PH_SAFE_HIGH
(both bounds inclusive); an unparseable health payload leaves the whole
state (log included) unchanged and publishes nothing; no other message
shape and no poll tick ever changes friend_unhealthy. -/
theorem health_parse_boundary (now : ℚ) (s : DeviceState) (topic : String)
    (payload : Payload) :
    (∀ x peer, splitSlash topic = [x, peer, "health"] → peer ≠ s.id →
      ((∀ ph, parseFloat payload = some ph →
        (((onMessage now s topic payload).1.friendUnhealthy = true) ↔
          ¬ (PH_SAFE_LOW ≤ ph ∧ ph ≤ PH_SAFE_HIGH))) ∧
       (parseFloat payload = none →
        onMessage now s topic payload = (s, [])))) ∧
    (isPeerHealth s topic = false →
      (onMessage now s topic payload).1.friendUnhealthy = s.friendUnhealthy) ∧
    (sensorTick now s).1.friendUnhealthy = s.friendUnhealthy := by
  refine ⟨?_, ?_, ?_⟩
  · intro x peer h hpeer
    constructor
    · intro ph hph
      simp [onMessage, h, onMessageParts, hpeer, hph,
        updateLed_friendUnhealthy]
      rw [imp_iff_not_or, not_le]
    · intro hnone
      simp [onMessage, h, onMessageParts, hpeer, hnone]
  · intro hns
    rcases hsp : splitSlash topic with _ | ⟨a, _ | ⟨b, _ | ⟨c, _ | ⟨d, rest⟩⟩⟩⟩ <;>
      simp only [onMessage, hsp, onMessageParts]
    rw [isPeerHealth, hsp] at hns
    simp only [Bool.and_eq_false_iff, beq_eq_false_iff_ne, ne_eq,
      bne_eq_false_iff_eq] at hns
    by_cases hb : b = s.id
    · rw [if_pos hb]
    · rw [if_neg hb]
      have hc : ¬ c = "health" := by
        rcases hns with hns | hns
        · exact hns
        · exact absurd hns hb
      split_ifs <;>
        simp_all [updateLed_friendUnhealthy, onFeedReceived_friendUnhealthy]
  · simp [sensorTick, updateLed_friendUnhealthy]

/-- Witness for C3 at the spec's boundary values: 3.99 trips the flag,
4.00 and 8.00 do not, 8.01 trips it, and the unparseable payload "abc"
leaves a fresh device state entirely unchanged. -/
theorem health_parse_boundary_witness :
    ((onMessage 0 (initDevice "B" "A") "kompanion/A/health"
      (Payload.phVal (399 / 100))).1.friendUnhealthy = true) ∧
    ((onMessage 0 (initDevice "B" "A") "kompanion/A/health"
      (Payload.phVal 4)).1.friendUnhealthy = false) ∧
    ((onMessage 0 (initDevice "B" "A") "kompanion/A/health"
      (Payload.phVal 8)).1.friendUnhealthy = false) ∧
    ((onMessage 0 (initDevice "B" "A") "kompanion/A/health"
      (Payload.phVal (801 / 100))).1.friendUnhealthy = true) ∧
    (onMessage 0 (initDevice "B" "A") "kompanion/A/health"
      (Payload.raw "abc") = (initDevice "B" "A", [])) := by
  refine ⟨?_, ?_, ?_, ?_, ?_⟩
  · exact (((health_parse_boundary 0 (initDevice "B" "A") "kompanion/A/health"
      (Payload.phVal (399 / 100))).1 "kompanion" "A" (by decide) (by decide)).1
      (399 / 100) rfl).mpr (by norm_num [PH_SAFE_LOW, PH_SAFE_HIGH])
  · refine Bool.eq_false_iff.mpr (fun hb => ?_)
    have h := (((health_parse_boundary 0 (initDevice "B" "A")
      "kompanion/A/health" (Payload.phVal 4)).1 "kompanion" "A"
      (by decide) (by decide)).1 4 rfl).mp hb
    exact h (by norm_num [PH_SAFE_LOW, PH_SAFE_HIGH])
  · refine Bool.eq_false_iff.mpr (fun hb => ?_)
    have h := (((health_parse_boundary 0 (initDevice "B" "A")
      "kompanion/A/health" (Payload.phVal 8)).1 "kompanion" "A"
      (by decide) (by decide)).1 8 rfl).mp hb
    exact h (by norm_num [PH_SAFE_LOW, PH_SAFE_HIGH])
  · exact (((health_parse_boundary 0 (initDevice "B" "A") "kompanion/A/health"
      (Payload.phVal (801 / 100))).1 "kompanion" "A" (by decide) (by decide)).1
      (801 / 100) rfl).mpr (by norm_num [PH_SAFE_LOW, PH_SAFE_HIGH])
  · exact ((health_parse_boundary 0 (initDevice "B" "A") "kompanion/A/health"
      (Payload.raw "abc")).1 "kompanion" "A" (by decide) (by decide)).2
      (by decide)

/-- C5: while no presence_binary message has ever been seen and the
stored timestamp is non-zero, every indicator recomputation (directly
via _update_led, or triggered by a poll tick) sets friend_present to
true exactly when now minus the timestamp is below PRESENCE_TIMEOUT;
once friend_binary_seen is true, recomputation never modifies
friend_present. -/
theorem presence_fallback (now : ℚ) (s : DeviceState) :
    (s.friendBinarySeen = false → s.friendLastPresenceTs ≠ 0 →
      ((updateLed now s).friendPresent =
        decide (now - s.friendLastPresenceTs < PRESENCE_TIMEOUT) ∧
       (sensorTick now s).1.friendPresent =
        decide (now - s.friendLastPresenceTs < PRESENCE_TIMEOUT))) ∧
    (s.friendBinarySeen = true →
      ((updateLed now s).friendPresent = s.friendPresent ∧
       (sensorTick now s).1.friendPresent = s.friendPresent)) := by
  constructor
  · intro h1 h2
    refine ⟨updateLed_friendPresent_fallback now s h1 h2, ?_⟩
    simp only [sensorTick]
    exact updateLed_friendPresent_fallback now _ h1 h2
  · intro h1
    have hskip : ∀ t : DeviceState, t.friendBinarySeen = true →
        ¬ (t.friendBinarySeen = false ∧ t.friendLastPresenceTs ≠ 0) := by
      rintro t ht ⟨hf, _⟩
      rw [ht] at hf
      exact Bool.noConfusion hf
    refine ⟨updateLed_friendPresent_skip now s (hskip s h1), ?_⟩
    simp only [sensorTick]
    exact updateLed_friendPresent_skip now _ (hskip _ h1)

/-- Witness for C5: a device that saw only a timestamp (ts = 3, still
fresh at now = 5) derives friend_present from the timeout; a device
with friend_binary_seen keeps its friend_present across recomputation. -/
theorem presence_fallback_witness :
    ((updateLed 5 { initDevice "B" "A" with friendLastPresenceTs := 3
      }).friendPresent = decide ((5 : ℚ) - 3 < PRESENCE_TIMEOUT) ∧
     (sensorTick 5 { initDevice "B" "A" with friendLastPresenceTs := 3
      }).1.friendPresent = decide ((5 : ℚ) - 3 < PRESENCE_TIMEOUT)) ∧
    ((updateLed 5 { initDevice "B" "A" with friendBinarySeen := true
      }).friendPresent = false ∧
     (sensorTick 5 { initDevice "B" "A" with friendBinarySeen := true
      }).1.friendPresent = false) := by
  constructor
  · exact (presence_fallback 5 _).1 rfl (by norm_num)
  · exact (presence_fallback 5 _).2 rfl

/-- C10: a presence message from the peer whose payload is the literal
"0" (which float-parses to 0.0) or is unparseable (defaulted to 0.0)
stores friend_last_presence_ts = 0 and leaves friend_present untouched,
and with a zero timestamp (and no presence_binary ever seen) every
further recomputation skips the timeout heuristic, so friend_present
keeps its previous value — a departure report never clears it through
the timestamp path. -/
theorem departure_freeze (now : ℚ) (s : DeviceState) (topic : String)
    (payload : Payload) :
    (∀ x peer, splitSlash topic = [x, peer, "presence"] → peer ≠ s.id →
      (parseFloat payload = some 0 ∨ parseFloat payload = none) →
      ((onMessage now s topic payload).1.friendLastPresenceTs = 0 ∧
       (onMessage now s topic payload).1.friendPresent = s.friendPresent)) ∧
    (s.friendBinarySeen = false → s.friendLastPresenceTs = 0 →
      (updateLed now s).friendPresent = s.friendPresent) := by
  constructor
  · intro x peer h hpeer hp
    have hts : (parseFloat payload).getD 0 = 0 := by
      rcases hp with hp | hp <;> rw [hp] <;> rfl
    have hskip := updateLed_friendPresent_skip now
      { s with friendLastPresenceTs := 0 }
      (by rintro ⟨_, hne⟩; exact hne rfl)
    constructor
    · simp [onMessage, h, onMessageParts, hpeer, hts,
        updateLed_friendLastPresenceTs]
    · simp [onMessage, h, onMessageParts, hpeer, hts, hskip]
  · intro h1 h2
    rw [updateLed_friendPresent_skip]
    rintro ⟨_, hne⟩
    exact hne h2

/-- Witness for C10: a departing peer (payload "0") zeroes the stored
timestamp while friend_present stays true, and a much later
recomputation still leaves friend_present true. -/
theorem departure_freeze_witness :
    ((onMessage 9 { initDevice "B" "A" with
        friendPresent := true
        friendLastPresenceTs := 3 } "kompanion/A/presence"
        (Payload.raw "0")).1.friendLastPresenceTs = 0 ∧
     (onMessage 9 { initDevice "B" "A" with
        friendPresent := true
        friendLastPresenceTs := 3 } "kompanion/A/presence"
        (Payload.raw "0")).1.friendPresent = true) ∧
    (updateLed 100 { initDevice "B" "A" with
        friendPresent := true }).friendPresent = true := by
  constructor
  · exact (departure_freeze 9 _ "kompanion/A/presence" (Payload.raw "0")).1
      "kompanion" "A" (by decide) (by decide) (Or.inl (by decide))
  · exact (departure_freeze 100 _ "x" (Payload.raw "")).2 rfl rfl

theorem updateLed_fresh (now : ℚ) (s : DeviceState) :
    ledFresh now (updateLed now s) := by
  constructor
  · by_cases hc : s.friendBinarySeen = false ∧ s.friendLastPresenceTs ≠ 0 <;>
      simp [updateLed, hc]
  · by_cases hc : s.friendBinarySeen = false ∧ s.friendLastPresenceTs ≠ 0
    · have h2 : (updateLed now s).friendBinarySeen = false ∧
          (updateLed now s).friendLastPresenceTs ≠ 0 := by
        rw [updateLed_friendBinarySeen, updateLed_friendLastPresenceTs]
        exact hc
      rw [updateLed_friendPresent_fallback now _ h2.1 h2.2,
        updateLed_friendPresent_fallback now s hc.1 hc.2,
        updateLed_friendLastPresenceTs]
    · have h2 : ¬ ((updateLed now s).friendBinarySeen = false ∧
          (updateLed now s).friendLastPresenceTs ≠ 0) := by
        rw [updateLed_friendBinarySeen, updateLed_friendLastPresenceTs]
        exact hc
      rw [updateLed_friendPresent_skip now _ h2]

/-- C2 counterexample: the claim says the indicator is recomputed after
every inbound message, but an inbound health message with an
unparseable payload is dropped before _update_led runs: at time 20,
with a stale timestamp (ts = 5, timeout 10), the code leaves the LED
amber although recomputation at that moment would turn it off. -/
theorem indicator_not_recomputed_on_ignored_message :
    (onMessage 20 c2State "kompanion/A/health"
      (Payload.raw "abc")).1.led = LedState.amber ∧
    (updateLed 20 (onMessage 20 c2State "kompanion/A/health"
      (Payload.raw "abc")).1).led = LedState.off := by
  have e : onMessage 20 c2State "kompanion/A/health" (Payload.raw "abc") =
      (c2State, []) := by
    have hs : splitSlash "kompanion/A/health" =
        ["kompanion", "A", "health"] := by decide
    have hn : parseFloat (Payload.raw "abc") = none := by decide
    simp [onMessage, hs, onMessageParts, c2State, initDevice, hn]
  rw [e]
  have hcond : c2State.friendBinarySeen = false ∧
      c2State.friendLastPresenceTs ≠ 0 := by
    refine ⟨rfl, ?_⟩
    show (5 : ℚ) ≠ 0
    norm_num
  have hfp : ¬ ((20 : ℚ) - c2State.friendLastPresenceTs <
      PRESENCE_TIMEOUT) := by
    show ¬ ((20 : ℚ) - 5 < 10)
    norm_num
  constructor
  · rfl
  · simp [updateLed, hcond, hfp, ledOf, c2State, initDevice]
    norm_num [PRESENCE_TIMEOUT]

/-- C2 (amended): the indicator is the pure precedence function of
(friend_unhealthy, present, friend_present) — red if unhealthy, else
amber if both present, else off — and it is recomputed after every
processed inbound message (one from the peer with a three-segment topic
and, for health, a parseable payload) and after every poll tick, while
ignored messages (own-id, malformed topic, unparseable health payload)
leave the entire state, indicator included, unchanged. -/
theorem indicator_pure_function (now : ℚ) (s : DeviceState)
    (topic : String) (payload : Payload) :
    ledFresh now (updateLed now s) ∧
    (∀ x peer kind, splitSlash topic = [x, peer, kind] → peer ≠ s.id →
      ¬ (kind = "health" ∧ parseFloat payload = none) →
      ledFresh now (onMessage now s topic payload).1) ∧
    ledFresh now (sensorTick now s).1 ∧
    ((∀ x peer kind, splitSlash topic ≠ [x, peer, kind]) →
      onMessage now s topic payload = (s, [])) ∧
    (∀ x kind, splitSlash topic = [x, s.id, kind] →
      onMessage now s topic payload = (s, [])) := by
  refine ⟨updateLed_fresh now s, ?_, ?_, ?_, ?_⟩
  · intro x peer kind h hpeer hnh
    simp only [onMessage, h, onMessageParts, if_neg hpeer]
    split_ifs with h1 h2 h3 h4
    · exact updateLed_fresh now _
    · exact updateLed_fresh now _
    · rcases hp : parseFloat payload with _ | ph
      · exact absurd ⟨h3, hp⟩ hnh
      · simp only [hp]
        exact updateLed_fresh now _
    · exact updateLed_fresh now _
    · exact updateLed_fresh now _
  · simp only [sensorTick]
    exact updateLed_fresh now _
  · intro hno
    rcases hsp : splitSlash topic with _ | ⟨a, _ | ⟨b, _ | ⟨c, _ | ⟨d, r⟩⟩⟩⟩ <;>
      first
      | exact absurd hsp (hno _ _ _)
      | simp [onMessage, hsp, onMessageParts]
  · intro x kind h
    simp [onMessage, h, onMessageParts]

/-- Witness for C2: concrete recomputations (direct, after a processed
presence_binary message, after a poll tick) yield a fresh indicator,
and concrete ignored messages (malformed topic, own-id topic) leave the
state unchanged. -/
theorem indicator_pure_function_witness :
    ledFresh 5 (updateLed 5 c2State) ∧
    ledFresh 5 (onMessage 5 c2State "kompanion/A/presence_binary"
      (Payload.raw "1")).1 ∧
    ledFresh 5 (sensorTick 5 c2State).1 ∧
    onMessage 5 c2State "noslashes" (Payload.raw "") = (c2State, []) ∧
    onMessage 5 c2State "kompanion/B/health" (Payload.raw "") =
      (c2State, []) := by
  refine ⟨(indicator_pure_function 5 c2State "x" (Payload.raw "")).1,
    (indicator_pure_function 5 c2State "kompanion/A/presence_binary"
      (Payload.raw "1")).2.1 "kompanion" "A" "presence_binary"
      (by decide) (by decide) (by simp),
    (indicator_pure_function 5 c2State "x" (Payload.raw "")).2.2.1,
    (indicator_pure_function 5 c2State "noslashes" (Payload.raw "")).2.2.2.1
      ?_,
    (indicator_pure_function 5 c2State "kompanion/B/health"
      (Payload.raw "")).2.2.2.2 "kompanion" "health" (by decide)⟩
  intro x peer kind h
  have hs : splitSlash "noslashes" = ["noslashes"] := by decide
  rw [hs] at h
  simp at h

theorem topic_health_ne_presence (i : String) :
    TOPIC_HEALTH i ≠ TOPIC_PRESENCE i := by
  intro h
  have hl := congrArg String.length h
  simp [TOPIC_HEALTH, TOPIC_PRESENCE, String.length_append] at hl
  exact absurd hl (by decide)

theorem topic_health_ne_presence_binary (i : String) :
    TOPIC_HEALTH i ≠ TOPIC_PRESENCE_BINARY i := by
  intro h
  have hl := congrArg String.length h
  simp [TOPIC_HEALTH, TOPIC_PRESENCE_BINARY, String.length_append] at hl
  exact absurd hl (by decide)

/-- C6: while recovering is set, a poll tick publishes no health
message at all; the feed-received sequence leaves recovering set, the
pH at the safe-range midpoint, and exactly the one immediate health
publish of that midpoint under the device's own id; and the recovery
window (2.5) strictly exceeds the poll interval (2), so a normal tick
— which always publishes the current pH when not recovering — runs
after the window closes. -/
theorem recovery_suppression (now : ℚ) (s : DeviceState) :
    (s.recovering = true → ∀ pl : Payload,
      (TOPIC_HEALTH s.id, pl) ∉ (sensorTick now s).2) ∧
    (s.recovering = false →
      (TOPIC_HEALTH s.id, Payload.phVal s.hwPh) ∈ (sensorTick now s).2) ∧
    ((onFeedReceived now s).1.recovering = true ∧
     (onFeedReceived now s).1.hwPh = (PH_SAFE_LOW + PH_SAFE_HIGH) / 2 ∧
     (onFeedReceived now s).2 =
       [(TOPIC_HEALTH s.id, Payload.phVal ((PH_SAFE_LOW + PH_SAFE_HIGH) / 2))]) ∧
    POLL_INTERVAL < RECOVERY_WINDOW := by
  refine ⟨?_, ?_, ⟨?_, ?_, ?_⟩, ?_⟩
  · intro hrec pl hmem
    rcases eq_or_ne s.hwPresence s.present with hne | hne
    · simp [sensorTick, hrec, hne] at hmem
    · simp [sensorTick, hrec, hne] at hmem
      rcases hmem with ⟨hmem, -⟩ | ⟨hmem, -⟩
      · exact topic_health_ne_presence s.id hmem
      · exact topic_health_ne_presence_binary s.id hmem
  · intro hrec
    simp [sensorTick, hrec]
  · simp [onFeedReceived, updateLed_recovering]
  · simp [onFeedReceived, updateLed_hwPh]
  · simp [onFeedReceived]
  · norm_num [POLL_INTERVAL, RECOVERY_WINDOW]

/-- Witness for C6: a recovering device's tick does not publish its
(stale) pH 7, while a non-recovering fresh device's tick does. -/
theorem recovery_suppression_witness :
    (TOPIC_HEALTH "A", Payload.phVal 7) ∉
      (sensorTick 0 { initDevice "A" "B" with recovering := true }).2 ∧
    (TOPIC_HEALTH "A", Payload.phVal 7) ∈
      (sensorTick 0 (initDevice "A" "B")).2 := by
  exact ⟨(recovery_suppression 0 _).1 rfl (Payload.phVal 7),
    (recovery_suppression 0 (initDevice "A" "B")).2.1 rfl⟩

theorem dispatchLoop_getElem {α ε β : Type} (run : α → Except ε β)
    (l : List α) (i : ℕ) :
    (dispatchLoop run l)[i]? = (l[i]?).map run := by
  induction l generalizing i with
  | nil => simp [dispatchLoop]
  | cons a l ih =>
    cases i with
    | zero => simp [dispatchLoop]
    | succ n => simpa [dispatchLoop] using ih n

theorem dispatchLoop_length {α ε β : Type} (run : α → Except ε β)
    (l : List α) : (dispatchLoop run l).length = l.length := by
  induction l with
  | nil => rfl
  | cons a l ih => simpa [dispatchLoop] using ih

/-- C8: publish invokes exactly the matching subscribers, once each, in
registration order (the i-th outcome is the i-th matching handler's
result); a handler that fails yields an error value in place while
every other matching handler's outcome is still produced, and the
publisher — busPublish being a total function — never sees an
exception; with no matching subscriber the dispatch list is empty. -/
theorem publish_dispatch_isolation {α ε β : Type}
    (subs : List (String × α)) (run : α → String → Payload → Except ε β)
    (topic : String) (payload : Payload) :
    (∀ i : ℕ, (busPublish subs run topic payload)[i]? =
      ((matchedSubs subs topic)[i]?).map (fun cb => run cb topic payload)) ∧
    (busPublish subs run topic payload).length =
      (matchedSubs subs topic).length ∧
    (matchedSubs subs topic = [] → busPublish subs run topic payload = []) ∧
    (∀ (i : ℕ) (cb : α) (e : ε), (matchedSubs subs topic)[i]? = some cb →
      run cb topic payload = Except.error e →
      ((busPublish subs run topic payload)[i]? = some (Except.error e) ∧
       ∀ j : ℕ, j ≠ i → (busPublish subs run topic payload)[j]? =
         ((matchedSubs subs topic)[j]?).map (fun cb2 => run cb2 topic payload))) := by
  refine ⟨?_, ?_, ?_, ?_⟩
  · intro i
    exact dispatchLoop_getElem _ _ i
  · exact dispatchLoop_length _ _
  · intro h
    rw [busPublish, h]
    rfl
  · intro i cb e hcb hrun
    constructor
    · rw [busPublish, dispatchLoop_getElem, hcb]
      simp [hrun]
    · intro j _
      exact dispatchLoop_getElem _ _ j

/-- Witness for C8: with three subscribers of which two match and the
second matching handler failing, the failed slot holds the error, the
first handler's result is still delivered, and a publish with no
matching subscriber dispatches nothing. -/
theorem publish_dispatch_isolation_witness :
    (busPublish [("kompanion/+/+", 0), ("kompanion/A/health", 1), ("other/x", 2)]
      (fun cb _ _ => if cb = 1 then Except.error "boom" else Except.ok cb)
      "kompanion/A/health" (Payload.raw "7"))[1]? =
        some (Except.error "boom") ∧
    (busPublish [("kompanion/+/+", 0), ("kompanion/A/health", 1), ("other/x", 2)]
      (fun cb _ _ => if cb = 1 then Except.error "boom" else Except.ok cb)
      "kompanion/A/health" (Payload.raw "7"))[0]? =
        some (Except.ok 0) ∧
    busPublish [("nomatch/q", 5)]
      (fun cb _ _ => if cb = 1 then Except.error "boom" else Except.ok cb)
      "kompanion/A/health" (Payload.raw "") = [] := by
  have h := publish_dispatch_isolation
    [("kompanion/+/+", 0), ("kompanion/A/health", 1), ("other/x", 2)]
    (fun cb _ _ => if cb = 1 then Except.error "boom" else Except.ok cb)
    "kompanion/A/health" (Payload.raw "7")
  have hm0 : (matchedSubs [("kompanion/+/+", 0), ("kompanion/A/health", 1),
      ("other/x", 2)] "kompanion/A/health")[0]? = some 0 := by decide
  have hm1 : (matchedSubs [("kompanion/+/+", 0), ("kompanion/A/health", 1),
      ("other/x", 2)] "kompanion/A/health")[1]? = some 1 := by decide
  refine ⟨(h.2.2.2 1 1 "boom" hm1 rfl).1, ?_, ?_⟩
  · rw [h.1 0, hm0]
    rfl
  · exact (publish_dispatch_isolation [("nomatch/q", 5)]
      (fun cb _ _ => if cb = 1 then Except.error "boom" else Except.ok cb)
      "kompanion/A/health" (Payload.raw "")).2.2.1 (by decide)

/-- C9: the retain (and qos) arguments of MockMQTTClient.publish are
discarded by the bus, delivery reaches exactly the handlers registered
at publish time (the bus stores no payload, so there is nothing to
replay), a handler not yet registered is never invoked, and a
subscriber added afterwards only extends the matching set of future
publishes. -/
theorem no_retained_replay {α ε β : Type} (subs : List (String × α))
    (run : α → String → Payload → Except ε β) (topic : String)
    (payload : Payload) (qos : ℕ) (retain : Bool) (p : String) (cb : α) :
    mockClientPublish subs run topic payload qos retain =
      busPublish subs run topic payload ∧
    (cb ∉ subs.map Prod.snd → cb ∉ matchedSubs subs topic) ∧
    matchedSubs (subscribeBus subs p cb) topic =
      matchedSubs subs topic ++
        (if busMatch p topic = true then [cb] else []) := by
  refine ⟨rfl, ?_, ?_⟩
  · intro hnot hmem
    apply hnot
    rcases List.mem_map.mp hmem with ⟨pc, hpc, hsnd⟩
    exact List.mem_map.mpr ⟨pc, List.mem_of_mem_filter hpc, hsnd⟩
  · simp only [matchedSubs, subscribeBus, List.filter_append,
      List.map_append, List.filter_cons, List.filter_nil]
    split_ifs with hma <;> simp

/-- Witness for C9: a late subscriber (handler 1) is absent from the
matching set of the earlier publish computed over the old table, the
retain flag changes nothing, and after subscribing it is appended. -/
theorem no_retained_replay_witness :
    mockClientPublish [("kompanion/+/+", 0)]
      (fun cb _ _ => (Except.ok cb : Except String ℕ))
      "kompanion/A/health" (Payload.raw "") 1 true =
      busPublish [("kompanion/+/+", 0)]
        (fun cb _ _ => (Except.ok cb : Except String ℕ))
        "kompanion/A/health" (Payload.raw "") ∧
    1 ∉ matchedSubs [("kompanion/+/+", 0)] "kompanion/A/health" ∧
    matchedSubs (subscribeBus [("kompanion/+/+", 0)] "kompanion/+/+" 1)
        "kompanion/A/health" =
      matchedSubs [("kompanion/+/+", 0)] "kompanion/A/health" ++
        (if busMatch "kompanion/+/+" "kompanion/A/health" = true
          then [1] else []) := by
  have h := no_retained_replay [("kompanion/+/+", 0)]
    (fun cb _ _ => (Except.ok cb : Except String ℕ))
    "kompanion/A/health" (Payload.raw "") 1 true "kompanion/+/+" 1
  exact ⟨h.1, h.2.1 (by decide), h.2.2⟩

/-- C1 (code-bug exhibit): with A's friend_unhealthy true, A's button
trigger publishes the feed on kompanion/B/feed; the own-id guard in
_on_message makes addressee B drop that message while sender A — for
which the peer segment "B" differs from its own id — runs the
feed-received sequence itself.  At the end of the delivered scenario A
has pH 6 and recovering set with the feed logged, while B still has
pH 3, is not recovering, logged no feed, and A's friend_unhealthy is
still true — the opposite of the claimed behaviour, under which B
executes the sequence and A does not. -/
theorem feed_misdelivery :
    feedScenario.devA.hwPh = 6 ∧
    feedScenario.devA.recovering = true ∧
    LogEntry.feedReceived "B" ∈ feedScenario.devA.log ∧
    feedScenario.devA.friendUnhealthy = true ∧
    feedScenario.devB.hwPh = 3 ∧
    feedScenario.devB.recovering = false ∧
    feedScenario.devB.log.all (fun e => ! isFeedEntry e) = true := by
  have e0 : devA0 = devA0x := by
    have hs : splitSlash "kompanion/B/health" =
        ["kompanion", "B", "health"] := by decide
    have ha : "kompanion/" ++ "B" ++ "/health" = "kompanion/B/health" := rfl
    simp [devA0, onMessage, TOPIC_HEALTH, ha, hs, onMessageParts, initDevice,
      parseFloat, updateLed, ledOf, devA0x, PH_SAFE_LOW, PH_SAFE_HIGH]
    norm_num
  have e1 : onButton devA0x = (devA1x, [("kompanion/B/feed", Payload.raw "")]) := by
    simp [onButton, devA0x, devA1x, TOPIC_FEED]
  have m1 : onMessage 1 devA1x "kompanion/B/feed" (Payload.raw "") =
      (devA2x, [("kompanion/A/health", Payload.phVal 6)]) := by
    have hs : splitSlash "kompanion/B/feed" =
        ["kompanion", "B", "feed"] := by decide
    have ha : "kompanion/" ++ "A" ++ "/health" = "kompanion/A/health" := rfl
    simp [onMessage, hs, ha, onMessageParts, devA1x, devA0x, devA2x,
      onFeedReceived, updateLed, ledOf, TOPIC_HEALTH, PH_SAFE_LOW, PH_SAFE_HIGH]
    norm_num
  have m2 : onMessage 1 devA2x "kompanion/A/health" (Payload.phVal 6) =
      (devA2x, []) := by
    have hs : splitSlash "kompanion/A/health" =
        ["kompanion", "A", "health"] := by decide
    simp [onMessage, hs, onMessageParts, devA2x]
  have m3 : onMessage 1 devB0 "kompanion/A/health" (Payload.phVal 6) =
      (devB1x, []) := by
    have hs : splitSlash "kompanion/A/health" =
        ["kompanion", "A", "health"] := by decide
    simp [onMessage, hs, onMessageParts, devB0, initDevice, parseFloat,
      updateLed, ledOf, devB1x, PH_SAFE_LOW, PH_SAFE_HIGH]
    norm_num
  have m4 : onMessage 1 devB1x "kompanion/B/feed" (Payload.raw "") =
      (devB1x, []) := by
    have hs : splitSlash "kompanion/B/feed" =
        ["kompanion", "B", "feed"] := by decide
    simp [onMessage, hs, onMessageParts, devB1x]
  have hm : busMatch "kompanion/+/+" "kompanion/B/feed" = true := by decide
  have hm2 : busMatch "kompanion/+/+" "kompanion/A/health" = true := by decide
  have hph : (PH_SAFE_LOW + PH_SAFE_HIGH) / 2 = (6 : ℚ) := by
    norm_num [PH_SAFE_LOW, PH_SAFE_HIGH]
  have haf : "kompanion/" ++ "B" ++ "/feed" = "kompanion/B/feed" := rfl
  have hah : "kompanion/" ++ "A" ++ "/health" = "kompanion/A/health" := rfl
  have hid : devA1x.id = "A" := rfl
  have hfid : devA0x.friendId = "B" := rfl
  have hw : feedScenario = { devA := devA2x, devB := devB1x } := by
    simp [feedScenario, e0, e1, deliverPubs, hm, hm2, m1, m2, m3, m4,
      TOPIC_FEED, TOPIC_HEALTH, hph, haf, hah, hid, hfid]
  rw [hw]
  refine ⟨rfl, rfl, ?_, rfl, rfl, rfl, rfl⟩
  simp [devA2x]

end Kompanion
